import Mathlib

/-!
Verification development for the AnonForum backend (Node/Express + Mongoose).

Shallow embedding of the content-lifecycle subsystem:
* `backend/models/Post.js` / `backend/models/Comment.js` — schema statics and
  instance methods (encryption, anon-id generation, flagging, soft delete,
  pre-save hooks, toJSON transform);
* `backend/middleware/security.js` — spam-pattern validation;
* `backend/routes/posts.js` — read-path queries (list, single, category,
  stats) and pagination clamping.

Byte strings are modelled as `List Nat`; JavaScript numbers that matter are
`Int`/`Nat`; `Math.random()` draws are passed explicitly as rationals in
`[0,1)`; Mongo documents are Lean structures and collections are lists.
-/

/-! ## Content cipher (Post.js 123-160, Comment.js 95-132)

The source calls Node's `crypto.createCipher('aes-256-gcm', key)` /
`crypto.createDecipher(...)`.  `createCipher` derives the actual cipher key
and initialization vector deterministically from its password argument
(OpenSSL `EVP_BytesToKey`); the `crypto.randomBytes(16)` value computed by
`encryptContent` is only stored in the returned `iv` field and is never given
to the cipher.  The AES-GCM keystream, the `EVP_BytesToKey` derivation and
the GHASH authentication tag are external primitives (OpenSSL, not in this
repository); they are modelled here by concrete executable stand-ins that
keep their algebraic shape: CTR-style XOR keystream encryption, a
deterministic key/iv derivation from the password, and a tag that binds the
associated data and the ciphertext injectively. -/

/-- Deterministic 32-byte key derivation performed by `createCipher`
(stand-in for `EVP_BytesToKey`). -/
def evpKey (pw : List Nat) : List Nat :=
  (List.range 32).map (fun i => (pw.sum * 37 + 11 * i + 5) % 256)

/-- Deterministic 16-byte iv derivation performed by `createCipher`
(stand-in for `EVP_BytesToKey`). -/
def evpIv (pw : List Nat) : List Nat :=
  (List.range 16).map (fun i => (pw.sum * 53 + 7 * i + 3) % 256)

/-- CTR keystream of the authenticated cipher (stand-in for AES-256-GCM's
keystream; only its determinism in `(key, iv)` matters to the claims). -/
def keystream (key iv : List Nat) (n : Nat) : List Nat :=
  (List.range n).map (fun i => (key.sum * 131 + iv.sum * 31 + 7 * i + 13) % 256)

/-- Authentication tag of the AEAD (stand-in for GHASH): binds key, iv,
associated data and ciphertext; injective in the ciphertext for a fixed
key/iv/aad, which models GCM's authentication guarantee. -/
def gcmTag (key iv aad ct : List Nat) : List Nat :=
  aad ++ ct ++ [key.sum % 256, iv.sum % 256, ct.length % 256]

/-- The fixed associated data `Buffer.from('anonforum', 'utf8')` set by
`cipher.setAAD` in Post.js line 129 / Comment.js line 101. -/
def anonforumAAD : List Nat := ("anonforum".toList).map Char.toNat

/-- The `{content, iv, authTag}` triple returned by `encryptContent`
(hex encoding elided: fields are byte strings). -/
structure EncryptedData where
  content : List Nat
  iv : List Nat
  authTag : List Nat
  deriving DecidableEq, Repr

/-- Embeds `postSchema.statics.encryptContent` (Post.js 123-141) =
`commentSchema.statics.encryptContent` (Comment.js 95-113, identical body).
`key` is the configured `ENCRYPTION_KEY` bytes; `freshIv` is the
`crypto.randomBytes(16)` draw of line 126.  Faithful to the source, the
cipher is `createCipher(algorithm, key)`: it uses the derived
`evpKey`/`evpIv`, and `freshIv` only lands in the stored `iv` field. -/
def encryptContent (key freshIv plain : List Nat) : EncryptedData :=
  let k := evpKey key
  let dv := evpIv key
  let ct := List.zipWith (fun a b => a ^^^ b) plain (keystream k dv plain.length)
  { content := ct, iv := freshIv, authTag := gcmTag k dv anonforumAAD ct }

/-- The placeholder string returned by the `catch` branch of
`decryptContent` (Post.js 158 / Comment.js 130), as bytes. -/
def decryptFailedText : List Nat :=
  ("[Content could not be decrypted]".toList).map Char.toNat

/-- Embeds `postSchema.statics.decryptContent` (Post.js 143-160) =
`commentSchema.statics.decryptContent` (Comment.js 115-132, identical body).
`createDecipher` re-derives the same key/iv from the password; `final()`
verifies the authentication tag and the surrounding `try/catch` turns any
failure into the placeholder string, so the embedding is a total function
whose failure branch yields `decryptFailedText`. -/
def decryptContent (key : List Nat) (e : EncryptedData) : List Nat :=
  let k := evpKey key
  let dv := evpIv key
  if e.authTag = gcmTag k dv anonforumAAD e.content then
    List.zipWith (fun a b => a ^^^ b) e.content (keystream k dv e.content.length)
  else
    decryptFailedText

lemma length_keystream (key iv : List Nat) (n : Nat) :
    (keystream key iv n).length = n := by
  simp [keystream]

lemma zipWith_xor_cancel :
    ∀ (p ks : List Nat), p.length ≤ ks.length →
      List.zipWith (fun a b => a ^^^ b) (List.zipWith (fun a b => a ^^^ b) p ks) ks = p := by
  intro p
  induction p with
  | nil => intro ks _; simp
  | cons a p ih =>
      intro ks hlen
      cases ks with
      | nil => simp at hlen
      | cons b ks =>
          simp only [List.zipWith_cons_cons, List.cons.injEq]
          refine ⟨?_, ih ks (by simpa using hlen)⟩
          exact Nat.xor_cancel_right b a

lemma gcmTag_inj (key iv aad c1 c2 : List Nat)
    (h : gcmTag key iv aad c1 = gcmTag key iv aad c2) : c1 = c2 := by
  unfold gcmTag at h
  have h1 : c1 ++ [key.sum % 256, iv.sum % 256, c1.length % 256]
      = c2 ++ [key.sum % 256, iv.sum % 256, c2.length % 256] := by
    rw [List.append_assoc, List.append_assoc] at h
    exact List.append_cancel_left h
  have hlen : c1.length = c2.length := by
    have h2 := congrArg List.length h1
    simp only [List.length_append, List.length_cons, List.length_nil] at h2
    omega
  rw [hlen] at h1
  exact List.append_cancel_right h1

lemma decryptContent_eq_failed (key : List Nat) (e : EncryptedData)
    (h : e.authTag ≠ gcmTag (evpKey key) (evpIv key) anonforumAAD e.content) :
    decryptContent key e = decryptFailedText := by
  simp [decryptContent, h]

/-- Claim C1: for every plaintext valid for storage (post content 10-5000
characters, comment content 1-2000 characters), with the process-wide 256-bit
encryption key configured, `decryptContent` applied to the triple returned by
`encryptContent` returns the original plaintext (encrypt/decrypt
round-trip). -/
theorem claim_C1_encrypt_decrypt_roundtrip (key freshIv plain : List Nat)
    (hkey : key.length = 32)
    (hvalid : (10 ≤ plain.length ∧ plain.length ≤ 5000) ∨
      (1 ≤ plain.length ∧ plain.length ≤ 2000)) :
    decryptContent key (encryptContent key freshIv plain) = plain := by
  have hlen : (List.zipWith (fun a b => a ^^^ b) plain
      (keystream (evpKey key) (evpIv key) plain.length)).length = plain.length := by
    simp [List.length_zipWith, length_keystream]
  simp only [decryptContent, encryptContent]
  rw [if_pos trivial, hlen]
  exact zipWith_xor_cancel plain _ (by rw [length_keystream])

/-- Witness for C1 at a concrete 32-byte key, 16-byte iv draw and a 10-byte
plaintext. -/
theorem claim_C1_encrypt_decrypt_roundtrip_witness :
    (List.range 32).length = 32 ∧
    (10 ≤ (List.range 10).length ∧ (List.range 10).length ≤ 5000) ∧
    decryptContent (List.range 32)
      (encryptContent (List.range 32) (List.replicate 16 0) (List.range 10)) =
      List.range 10 :=
  ⟨by decide, by decide,
    claim_C1_encrypt_decrypt_roundtrip (List.range 32) (List.replicate 16 0)
      (List.range 10) (by decide) (Or.inl (by decide))⟩

/-- Claim C2: `decryptContent` fails closed — on an input whose `authTag` is
not the genuine tag of its ciphertext (tampered tag), or whose ciphertext
differs from the one the tag was computed over (tampered ciphertext), it
returns the placeholder `decryptFailedText`; the embedding is a total
function, mirroring the `try/catch` that prevents any uncaught exception. -/
theorem claim_C2_decrypt_tamper_placeholder (key freshIv plain tag2 ct2 : List Nat) :
    (tag2 ≠ (encryptContent key freshIv plain).authTag →
      decryptContent key
        { content := (encryptContent key freshIv plain).content,
          iv := freshIv, authTag := tag2 } = decryptFailedText) ∧
    (ct2 ≠ (encryptContent key freshIv plain).content →
      decryptContent key
        { content := ct2, iv := freshIv,
          authTag := (encryptContent key freshIv plain).authTag } =
        decryptFailedText) := by
  constructor
  · intro hne
    refine decryptContent_eq_failed key _ ?_
    simpa [encryptContent] using hne
  · intro hne
    simp only [encryptContent] at hne
    refine decryptContent_eq_failed key _ ?_
    simp only [encryptContent]
    intro heq
    exact hne (gcmTag_inj _ _ _ _ _ heq).symm

/-- Witness for C2: a concrete encryption whose tag is replaced by `[]` (and
whose ciphertext is replaced by `[]`) decrypts to the placeholder. -/
theorem claim_C2_decrypt_tamper_placeholder_witness :
    ([] ≠ (encryptContent (List.range 32) (List.replicate 16 0)
        (List.range 10)).authTag) ∧
    decryptContent (List.range 32)
      { content := (encryptContent (List.range 32) (List.replicate 16 0)
          (List.range 10)).content,
        iv := List.replicate 16 0, authTag := [] } = decryptFailedText :=
  ⟨by decide,
    (claim_C2_decrypt_tamper_placeholder (List.range 32) (List.replicate 16 0)
      (List.range 10) [] []).1 (by decide)⟩

/-- Claim C3 (code bug): the ciphertext produced by `encryptContent` does not
depend on the fresh random iv at all — the source passes the key to
`crypto.createCipher`, which derives its own key/iv, and the
`crypto.randomBytes(16)` draw is only stored in the output's `iv` field.  Two
calls with different fresh randomness therefore return different `iv` fields
but identical ciphertext, contradicting the claimed non-deterministic
encryption. -/
theorem claim_C3_ciphertext_ignores_fresh_iv (key plain iv1 iv2 : List Nat) :
    (encryptContent key iv1 plain).content = (encryptContent key iv2 plain).content ∧
    (encryptContent key iv1 plain).authTag = (encryptContent key iv2 plain).authTag ∧
    (encryptContent key iv1 plain).iv = iv1 ∧
    (encryptContent key iv2 plain).iv = iv2 :=
  ⟨rfl, rfl, rfl, rfl⟩

/-! ## Anonymous identity generator (Post.js 110-115, Comment.js 83-88)

`generateAnonId` draws `Math.random()` twice; the draws are passed in
explicitly as rationals in `[0, 1)`. -/

/-- The fixed word list of `generateAnonId` (8 entries). -/
def anonWordList : List String :=
  ["Anon", "Ghost", "Shadow", "Phantom", "Mystery", "Unknown", "Cipher", "Void"]

/-- Embeds `Math.floor(Math.random() * prefixes.length)` with draw `r`. -/
def anonWordIndex (r : ℚ) : Nat := (⌊r * 8⌋).toNat

/-- Embeds `Math.floor(Math.random() * 9999) + 1000` with draw `r`
(Post.js line 113 / Comment.js line 86). -/
def anonNumber (r : ℚ) : Nat := (⌊r * 9999⌋).toNat + 1000

/-- Embeds `postSchema.statics.generateAnonId` (Post.js 110-115) =
`commentSchema.statics.generateAnonId` (Comment.js 83-88, identical body):
the template literal concatenates the chosen word and the number. -/
def generateAnonId (r1 r2 : ℚ) : String :=
  anonWordList.getD (anonWordIndex r1) "Anon" ++ toString (anonNumber r2)

/-- Counterexample to C7: the valid draw `r = 9998/9999` yields the number
`10998`, which lies outside `[1000, 9999]` and has five digits, so the
generated label is not a prefix word followed by a 4-digit integer drawn
from `[1000, 9999]`. -/
theorem claim_C7_counterexample :
    ((0 : ℚ) ≤ 9998 / 9999 ∧ (9998 / 9999 : ℚ) < 1) ∧
    anonNumber (9998 / 9999) = 10998 ∧
    generateAnonId 0 (9998 / 9999) = "Anon10998" ∧
    ¬ anonNumber (9998 / 9999) ≤ 9999 ∧
    (toString (anonNumber (9998 / 9999))).length = 5 := by
  have hn : anonNumber (9998 / 9999) = 10998 := by
    have h9 : ((9998 : ℚ) / 9999) * 9999 = 9998 := by norm_num
    unfold anonNumber
    rw [h9]
    norm_num
    decide
  have hw : anonWordIndex 0 = 0 := by
    unfold anonWordIndex
    norm_num
  refine ⟨⟨by norm_num, by norm_num⟩, hn, ?_, ?_, ?_⟩
  · unfold generateAnonId
    rw [hw, hn]
    decide
  · rw [hn]
    decide
  · rw [hn]
    decide

/-- Claim C7 as amended: every call returns one of the 8 fixed prefix words
followed by the decimal integer `⌊r·9999⌋ + 1000`, which ranges over
`[1000, 10998]` (so it can have four or five digits) for draws in
`[0, 1)`. -/
theorem claim_C7_anon_id_shape_amended (r1 r2 : ℚ)
    (h1a : 0 ≤ r1) (h1b : r1 < 1) (h2a : 0 ≤ r2) (h2b : r2 < 1) :
    (∃ w ∈ anonWordList, generateAnonId r1 r2 = w ++ toString (anonNumber r2)) ∧
    1000 ≤ anonNumber r2 ∧ anonNumber r2 ≤ 10998 := by
  have hidx : anonWordIndex r1 < 8 := by
    have hf : (⌊r1 * 8⌋ : ℤ) < 8 := by
      apply Int.floor_lt.2
      push_cast
      nlinarith
    have hf0 : (0 : ℤ) ≤ ⌊r1 * 8⌋ := by
      apply Int.floor_nonneg.2
      nlinarith
    unfold anonWordIndex
    omega
  have hnum : anonNumber r2 ≤ 10998 := by
    have hf : (⌊r2 * 9999⌋ : ℤ) < 9999 := by
      apply Int.floor_lt.2
      push_cast
      nlinarith
    have hf0 : (0 : ℤ) ≤ ⌊r2 * 9999⌋ := by
      apply Int.floor_nonneg.2
      nlinarith
    unfold anonNumber
    omega
  refine ⟨⟨anonWordList.getD (anonWordIndex r1) "Anon", ?_, rfl⟩, ?_, hnum⟩
  · have hlen : anonWordIndex r1 < anonWordList.length := by
      simpa [anonWordList] using hidx
    rw [List.getD_eq_get _ _ hlen]
    exact List.get_mem _ _ hlen
  · unfold anonNumber
    omega

/-- Witness for the amended C7 at the draws `r1 = 0`, `r2 = 1/2`. -/
theorem claim_C7_anon_id_shape_amended_witness :
    ((0 : ℚ) ≤ 0 ∧ (0 : ℚ) < 1 ∧ (0 : ℚ) ≤ 1 / 2 ∧ (1 / 2 : ℚ) < 1) ∧
    ((∃ w ∈ anonWordList,
        generateAnonId 0 (1 / 2) = w ++ toString (anonNumber (1 / 2))) ∧
      1000 ≤ anonNumber (1 / 2) ∧ anonNumber (1 / 2) ≤ 10998) :=
  ⟨⟨by norm_num, by norm_num, by norm_num, by norm_num⟩,
    claim_C7_anon_id_shape_amended 0 (1 / 2) (by norm_num) (by norm_num)
      (by norm_num) (by norm_num)⟩

/-! ## Post and Comment documents (Post.js 4-101, Comment.js 4-75)

Mongo documents as structures; `Option` marks fields that may be unset
before the pre-save hooks run (`anonId`, `expiresAt` on comments) or that
the schema makes optional (`userAgent`, `deletedAt`). -/

structure PostRec where
  id : Nat
  anonId : String
  title : String
  content : EncryptedData
  category : String
  tags : List String
  likes : Nat
  commentCount : Nat
  ipHash : String
  userAgent : Option String
  createdAt : Nat
  expiresAt : Nat
  isDeleted : Bool
  deletedAt : Option Nat
  isFlagged : Bool
  flagCount : Nat
  updatedAt : Nat
  deriving DecidableEq, Repr

structure CommentRec where
  id : Nat
  postId : Nat
  anonId : Option String
  content : EncryptedData
  ipHash : String
  userAgent : Option String
  createdAt : Nat
  expiresAt : Option Nat
  isDeleted : Bool
  deletedAt : Option Nat
  isFlagged : Bool
  flagCount : Nat
  updatedAt : Nat
  deriving DecidableEq, Repr

/-- Embeds `postSchema.methods.incrementLikes` (Post.js 163-166). -/
def PostRec.incrementLikes (p : PostRec) : PostRec :=
  { p with likes := p.likes + 1 }

/-- Embeds `postSchema.methods.incrementComments` (Post.js 168-171). -/
def PostRec.incrementComments (p : PostRec) : PostRec :=
  { p with commentCount := p.commentCount + 1 }

/-- Embeds `postSchema.methods.decrementComments` (Post.js 173-178). -/
def PostRec.decrementComments (p : PostRec) : PostRec :=
  if 0 < p.commentCount then { p with commentCount := p.commentCount - 1 } else p

/-- Embeds `postSchema.methods.softDelete` (Post.js 180-184). -/
def PostRec.softDelete (now : Nat) (p : PostRec) : PostRec :=
  { p with isDeleted := true, deletedAt := some now }

/-- Embeds `postSchema.methods.flag` (Post.js 186-192): increments
`flagCount`, then sets `isFlagged` when the new count is at least 5. -/
def PostRec.flag (p : PostRec) : PostRec :=
  let fc := p.flagCount + 1
  { p with flagCount := fc, isFlagged := if 5 ≤ fc then true else p.isFlagged }

/-- Embeds `commentSchema.methods.softDelete` (Comment.js 135-139). -/
def CommentRec.softDelete (now : Nat) (c : CommentRec) : CommentRec :=
  { c with isDeleted := true, deletedAt := some now }

/-- Embeds `commentSchema.methods.flag` (Comment.js 141-147): the comment
threshold is 3. -/
def CommentRec.flag (c : CommentRec) : CommentRec :=
  let fc := c.flagCount + 1
  { c with flagCount := fc, isFlagged := if 3 ≤ fc then true else c.isFlagged }

/-- The instance methods through which route handlers mutate a stored Post
(Post.js 162-192). -/
inductive PostOp where
  | like
  | incComments
  | decComments
  | softDel (now : Nat)
  | flagIt
  deriving DecidableEq, Repr

def applyPostOp : PostOp → PostRec → PostRec
  | .like, p => p.incrementLikes
  | .incComments, p => p.incrementComments
  | .decComments, p => p.decrementComments
  | .softDel now, p => p.softDelete now
  | .flagIt, p => p.flag

/-- The instance methods through which route handlers mutate a stored
Comment (Comment.js 134-147). -/
inductive CommentOp where
  | softDel (now : Nat)
  | flagIt
  deriving DecidableEq, Repr

def applyCommentOp : CommentOp → CommentRec → CommentRec
  | .softDel now, c => c.softDelete now
  | .flagIt, c => c.flag

/-- `n` successive `flag()` calls on a Post. -/
def applyPostFlags : Nat → PostRec → PostRec
  | 0, p => p
  | n + 1, p => (applyPostFlags n p).flag

/-- `n` successive `flag()` calls on a Comment. -/
def applyCommentFlags : Nat → CommentRec → CommentRec
  | 0, c => c
  | n + 1, c => (applyCommentFlags n c).flag

lemma applyPostFlags_state (p0 : PostRec) (hp : p0.flagCount = 0)
    (hpf : p0.isFlagged = false) :
    ∀ n, (applyPostFlags n p0).flagCount = n ∧
      (applyPostFlags n p0).isFlagged = decide (5 ≤ n) := by
  intro n
  induction n with
  | zero => simpa [applyPostFlags, hp, hpf] using hpf
  | succ n ih =>
      obtain ⟨h1, h2⟩ := ih
      refine ⟨?_, ?_⟩
      · simp [applyPostFlags, PostRec.flag, h1]
      · simp only [applyPostFlags, PostRec.flag, h1, h2]
        by_cases h : 5 ≤ n + 1
        · simp [h]
        · have h' : ¬ 5 ≤ n := by omega
          simp [h, h']

lemma applyCommentFlags_state (c0 : CommentRec) (hc : c0.flagCount = 0)
    (hcf : c0.isFlagged = false) :
    ∀ n, (applyCommentFlags n c0).flagCount = n ∧
      (applyCommentFlags n c0).isFlagged = decide (3 ≤ n) := by
  intro n
  induction n with
  | zero => simpa [applyCommentFlags, hc, hcf] using hcf
  | succ n ih =>
      obtain ⟨h1, h2⟩ := ih
      refine ⟨?_, ?_⟩
      · simp [applyCommentFlags, CommentRec.flag, h1]
      · simp only [applyCommentFlags, CommentRec.flag, h1, h2]
        by_cases h : 3 ≤ n + 1
        · simp [h]
        · have h' : ¬ 3 ≤ n := by omega
          simp [h, h']

/-- Claim C5: starting from a fresh record (`flagCount = 0`,
`isFlagged = false`), the 5th flag call on a Post (3rd on a Comment) is the
exact call that turns `isFlagged` on — every earlier call leaves it false —
and once true, no instance-method operation (including further flags and
soft delete) ever makes it false again. -/
theorem claim_C5_flag_threshold_and_monotonicity
    (p0 : PostRec) (c0 : CommentRec)
    (hp : p0.flagCount = 0) (hpf : p0.isFlagged = false)
    (hc : c0.flagCount = 0) (hcf : c0.isFlagged = false) :
    (∀ n, n < 5 → (applyPostFlags n p0).isFlagged = false) ∧
    (applyPostFlags 5 p0).isFlagged = true ∧
    (applyPostFlags 4 p0).flagCount = 4 ∧
    (∀ n, 5 ≤ n → (applyPostFlags n p0).isFlagged = true) ∧
    (∀ (op : PostOp) (p : PostRec), p.isFlagged = true →
      (applyPostOp op p).isFlagged = true) ∧
    (∀ n, n < 3 → (applyCommentFlags n c0).isFlagged = false) ∧
    (applyCommentFlags 3 c0).isFlagged = true ∧
    (∀ n, 3 ≤ n → (applyCommentFlags n c0).isFlagged = true) ∧
    (∀ (op : CommentOp) (c : CommentRec), c.isFlagged = true →
      (applyCommentOp op c).isFlagged = true) := by
  refine ⟨?_, ?_, ?_, ?_, ?_, ?_, ?_, ?_, ?_⟩
  · intro n hn
    rw [(applyPostFlags_state p0 hp hpf n).2]
    simp
    omega
  · rw [(applyPostFlags_state p0 hp hpf 5).2]
    simp
  · exact (applyPostFlags_state p0 hp hpf 4).1
  · intro n hn
    rw [(applyPostFlags_state p0 hp hpf n).2]
    simpa using hn
  · intro op p h
    cases op <;>
      simp [applyPostOp, PostRec.incrementLikes, PostRec.incrementComments,
        PostRec.decrementComments, PostRec.softDelete, PostRec.flag, h] <;>
      split <;> simp [h]
  · intro n hn
    rw [(applyCommentFlags_state c0 hc hcf n).2]
    simp
    omega
  · rw [(applyCommentFlags_state c0 hc hcf 3).2]
    simp
  · intro n hn
    rw [(applyCommentFlags_state c0 hc hcf n).2]
    simpa using hn
  · intro op c h
    cases op <;>
      simp [applyCommentOp, CommentRec.softDelete, CommentRec.flag, h]

/-- A concrete freshly created post used by witnesses. -/
def samplePost : PostRec :=
  { id := 1, anonId := "Anon1234", title := "t", content := ⟨[], [], []⟩,
    category := "general", tags := [], likes := 0, commentCount := 0,
    ipHash := "h", userAgent := none, createdAt := 0,
    expiresAt := 604800000, isDeleted := false, deletedAt := none,
    isFlagged := false, flagCount := 0, updatedAt := 0 }

/-- A concrete freshly created comment used by witnesses. -/
def sampleComment : CommentRec :=
  { id := 2, postId := 1, anonId := none, content := ⟨[], [], []⟩,
    ipHash := "h", userAgent := none, createdAt := 0, expiresAt := none,
    isDeleted := false, deletedAt := none, isFlagged := false,
    flagCount := 0, updatedAt := 0 }

/-- Witness for C5 on concrete fresh records: 4 flags leave the post
unflagged, the 5th flips it (3rd for a comment). -/
theorem claim_C5_flag_threshold_and_monotonicity_witness :
    (samplePost.flagCount = 0 ∧ samplePost.isFlagged = false ∧
      sampleComment.flagCount = 0 ∧ sampleComment.isFlagged = false) ∧
    (applyPostFlags 4 samplePost).isFlagged = false ∧
    (applyPostFlags 5 samplePost).isFlagged = true ∧
    (applyCommentFlags 3 sampleComment).isFlagged = true :=
  ⟨⟨rfl, rfl, rfl, rfl⟩,
    (claim_C5_flag_threshold_and_monotonicity samplePost sampleComment
      rfl rfl rfl rfl).1 4 (by omega),
    (claim_C5_flag_threshold_and_monotonicity samplePost sampleComment
      rfl rfl rfl rfl).2.1,
    (claim_C5_flag_threshold_and_monotonicity samplePost sampleComment
      rfl rfl rfl rfl).2.2.2.2.2.2.1⟩

/-! ## Comment creation and expiry inheritance (Comment.js 150-170) -/

/-- Embeds `commentSchema.pre('save')` (Comment.js 150-170): generates the
anonymous id when unset (`genId` is the `generateAnonId()` draw) and, when
`expiresAt` is unset, copies the parent post's `expiresAt` fetched through
`lookup` (standing for `Post.findById`); when the parent is not found the
field is left unchanged.  `postId` is a required ObjectId, hence always
truthy in the source's `!this.expiresAt && this.postId` test. -/
def commentPreSave (lookup : Nat → Option PostRec) (genId : String)
    (c : CommentRec) : CommentRec :=
  let c1 := if c.anonId = none then { c with anonId := some genId } else c
  if c1.expiresAt = none then
    match lookup c1.postId with
    | some post => { c1 with expiresAt := some post.expiresAt }
    | none => c1
  else c1

/-- Modelled from the spec: the create-comment route handler
(`backend/routes/comments.js`) is required by `server.js` line 17 but is not
under `src/`.  Per the spec (§3: a Comment's `expiresAt` is "copied from
parent Post at creation"; §2 flow: validated submission → identity → cipher
→ store write), the handler builds a new Comment document referencing the
existing parent post — `expiresAt` initially unset — and saves it, the
pre-save hook performing the copy. -/
def createComment (lookup : Nat → Option PostRec) (genId : String)
    (cid pid : Nat) (content : EncryptedData) (iph : String)
    (ua : Option String) (now : Nat) : CommentRec :=
  commentPreSave lookup genId
    { id := cid, postId := pid, anonId := none, content := content,
      ipHash := iph, userAgent := ua, createdAt := now, expiresAt := none,
      isDeleted := false, deletedAt := none, isFlagged := false,
      flagCount := 0, updatedAt := now }

/-- Claim C6: a Comment created with a reference to an existing parent Post
gets exactly the parent's `expiresAt`, whatever the creation time (the hook
copies the timestamp verbatim and never consults the clock). -/
theorem claim_C6_comment_inherits_parent_expiry
    (lookup : Nat → Option PostRec) (genId : String) (cid pid : Nat)
    (content : EncryptedData) (iph : String) (ua : Option String)
    (now : Nat) (post : PostRec) (hfound : lookup pid = some post) :
    (createComment lookup genId cid pid content iph ua now).expiresAt =
      some post.expiresAt := by
  simp [createComment, commentPreSave, hfound]

/-- Witness for C6: a concrete store holding `samplePost` under id 1; the
created comment inherits `samplePost.expiresAt`. -/
theorem claim_C6_comment_inherits_parent_expiry_witness :
    ((fun n => if n = 1 then some samplePost else none) 1 = some samplePost) ∧
    (createComment (fun n => if n = 1 then some samplePost else none)
        "Ghost4321" 2 1 ⟨[], [], []⟩ "h" none 42).expiresAt =
      some samplePost.expiresAt :=
  ⟨rfl,
    claim_C6_comment_inherits_parent_expiry
      (fun n => if n = 1 then some samplePost else none) "Ghost4321" 2 1
      ⟨[], [], []⟩ "h" none 42 samplePost rfl⟩

/-! ## Read-path queries (backend/routes/posts.js)

Mongo's `find(query).sort(...).skip(...).limit(...)` pipeline over a list
store.  Sorting is modelled by an insertion sort parameterised by the
comparator the route builds from `req.query.sort` / `req.query.order`;
only the permutation property matters to the claims. -/

def insOrd {α : Type} (le : α → α → Bool) (a : α) : List α → List α
  | [] => [a]
  | b :: l => if le a b then a :: b :: l else b :: insOrd le a l

def sortWith {α : Type} (le : α → α → Bool) : List α → List α
  | [] => []
  | a :: l => insOrd le a (sortWith le l)

lemma mem_insOrd {α : Type} (le : α → α → Bool) (a x : α) :
    ∀ l, x ∈ insOrd le a l ↔ x = a ∨ x ∈ l := by
  intro l
  induction l with
  | nil => simp [insOrd]
  | cons b l ih =>
      by_cases h : le a b
      · simp [insOrd, h]
      · simp [insOrd, h, ih]
        tauto

lemma mem_sortWith {α : Type} (le : α → α → Bool) (x : α) :
    ∀ l, x ∈ sortWith le l ↔ x ∈ l := by
  intro l
  induction l with
  | nil => simp [sortWith]
  | cons a l ih => simp [sortWith, mem_insOrd, ih]

/-- JavaScript `v || d` for the result of `parseInt` on a query parameter:
`none` stands for a missing parameter or `NaN`, and `0` is falsy. -/
def jsOrDefault (v : Option Int) (d : Int) : Int :=
  match v with
  | none => d
  | some x => if x = 0 then d else x

/-- Embeds `Math.max(1, parseInt(req.query.page) || 1)`
(posts.js list route and category route). -/
def pageOf (q : Option Int) : Int := max 1 (jsOrDefault q 1)

/-- Embeds `Math.min(50, Math.max(1, parseInt(req.query.limit) || 20))`
(posts.js list route and category route). -/
def limitOf (q : Option Int) : Int := min 50 (max 1 (jsOrDefault q 20))

/-- The filter `{isDeleted: false, isFlagged: false, expiresAt: {$gt: now}}`
used by the list, single-post, like, and category queries. -/
def postVisible (now : Nat) (p : PostRec) : Bool :=
  !p.isDeleted && !p.isFlagged && decide (now < p.expiresAt)

/-- The corresponding comment filter of the single-post route; a missing
`expiresAt` never satisfies `$gt`. -/
def commentVisible (now : Nat) (c : CommentRec) : Bool :=
  !c.isDeleted && !c.isFlagged &&
    (match c.expiresAt with
     | some t => decide (now < t)
     | none => false)

/-- Embeds the list route `router.get('/')` (posts.js 319-375): visibility
filter plus optional category, sort, then `skip((page-1)*limit)` and
`limit(limit)`. -/
def listPostsQuery (db : List PostRec) (now : Nat) (cat : Option String)
    (le : PostRec → PostRec → Bool) (pageQ limitQ : Option Int) :
    List PostRec :=
  let page := pageOf pageQ
  let lim := limitOf limitQ
  let filtered := db.filter (fun p => postVisible now p &&
    (match cat with
     | some c => p.category == c
     | none => true))
  (((sortWith le filtered).drop ((page - 1) * lim).toNat).take lim.toNat)

/-- Embeds the single-post lookup of `router.get('/:id')`
(posts.js 387-392): `findOne` with the visibility filter. -/
def getPostQuery (db : List PostRec) (now pid : Nat) : Option PostRec :=
  (db.filter (fun p => p.id == pid && postVisible now p)).head?

/-- Embeds the comment query of `router.get('/:id')` (posts.js 399-407):
visible comments of the post, sorted by `createdAt` ascending, first 100. -/
def getPostCommentsQuery (cdb : List CommentRec) (now pid : Nat) :
    List CommentRec :=
  ((sortWith (fun a b => decide (a.createdAt ≤ b.createdAt))
    (cdb.filter (fun c => c.postId == pid && commentVisible now c))).take 100)

/-- Embeds `router.get('/category/:category')` (posts.js 582-591): category
plus visibility filter, newest first, skip/limit as in the list route. -/
def categoryPostsQuery (db : List PostRec) (now : Nat) (cat : String)
    (pageQ limitQ : Option Int) : List PostRec :=
  let page := pageOf pageQ
  let lim := limitOf limitQ
  let filtered := db.filter (fun p => p.category == cat && postVisible now p)
  (((sortWith (fun a b => decide (b.createdAt ≤ a.createdAt)) filtered).drop
    ((page - 1) * lim).toNat).take lim.toNat)

structure StatsOverview where
  totalPosts : Nat
  totalComments : Nat
  postsToday : Nat
  activeCategories : Nat
  deriving DecidableEq, Repr

/-- The stats filter `{isDeleted: false, expiresAt: {$gt: now}}`
(posts.js 628-644) — note it does not constrain `isFlagged`. -/
def statsPostVisible (now : Nat) (p : PostRec) : Bool :=
  !p.isDeleted && decide (now < p.expiresAt)

def statsCommentVisible (now : Nat) (c : CommentRec) : Bool :=
  !c.isDeleted &&
    (match c.expiresAt with
     | some t => decide (now < t)
     | none => false)

def dayMs : Nat := 24 * 60 * 60 * 1000

/-- Embeds `router.get('/stats/overview')` (posts.js 624-659).  The
`createdAt ≥ now - 24h` window is written additively (`now ≤ createdAt +
24h`) to match JavaScript's integer arithmetic under the `Nat` encoding of
timestamps. -/
def statsOverviewQuery (db : List PostRec) (cdb : List CommentRec)
    (now : Nat) : StatsOverview :=
  { totalPosts := (db.filter (statsPostVisible now)).length
    totalComments := (cdb.filter (statsCommentVisible now)).length
    postsToday := (db.filter (fun p => statsPostVisible now p &&
      decide (now ≤ p.createdAt + dayMs))).length
    activeCategories :=
      (((db.filter (statsPostVisible now)).map (fun p => p.category)).dedup).length }

lemma head?_mem {α : Type} {l : List α} {a : α} (h : l.head? = some a) :
    a ∈ l := by
  cases l with
  | nil => simp at h
  | cons b t =>
      simp only [List.head?_cons, Option.some.injEq] at h
      exact h ▸ List.mem_cons_self b t

lemma postVisible_spec {now : Nat} {p : PostRec} (h : postVisible now p = true) :
    p.isDeleted = false ∧ p.isFlagged = false ∧ now < p.expiresAt := by
  simp only [postVisible, Bool.and_eq_true, Bool.not_eq_true',
    decide_eq_true_eq] at h
  tauto

lemma commentVisible_spec {now : Nat} {c : CommentRec}
    (h : commentVisible now c = true) :
    c.isDeleted = false ∧ c.isFlagged = false ∧
      ∃ t, c.expiresAt = some t ∧ now < t := by
  simp only [commentVisible, Bool.and_eq_true, Bool.not_eq_true'] at h
  obtain ⟨⟨h1, h2⟩, h3⟩ := h
  refine ⟨h1, h2, ?_⟩
  cases hc : c.expiresAt with
  | none => rw [hc] at h3; simp at h3
  | some t =>
      rw [hc] at h3
      simp only [decide_eq_true_eq] at h3
      exact ⟨t, rfl, h3⟩

/-- A flagged but neither deleted nor expired post: the stats route still
counts it. -/
def flaggedPost : PostRec :=
  { samplePost with id := 7, isFlagged := true, flagCount := 5 }

/-- Counterexample to C4: `flaggedPost` is flagged (and neither soft-deleted
nor expired at `now = 0`), yet the statistics-overview read path counts it —
`totalPosts = 1` over a store whose only record is flagged — because the
stats queries filter only on `isDeleted` and `expiresAt`, not `isFlagged`. -/
theorem claim_C4_counterexample :
    flaggedPost.isFlagged = true ∧ flaggedPost.isDeleted = false ∧
    (0 : Nat) < flaggedPost.expiresAt ∧
    (statsOverviewQuery [flaggedPost] [] 0).totalPosts = 1 ∧
    (statsOverviewQuery [flaggedPost] [] 0).activeCategories = 1 := by
  refine ⟨rfl, rfl, by decide, rfl, rfl⟩

/-- Claim C4 as amended: the list, single-post (with its comments) and
category read paths return only records that are neither expired
(`expiresAt ≤ now`), nor soft-deleted, nor flagged; the statistics overview
excludes expired and soft-deleted records but counts flagged ones (its
filter has no `isFlagged` clause). -/
theorem claim_C4_read_paths_exclude_amended
    (db : List PostRec) (cdb : List CommentRec) (now pid : Nat)
    (cat : Option String) (catName : String)
    (le : PostRec → PostRec → Bool) (pageQ limitQ : Option Int) :
    (∀ p ∈ listPostsQuery db now cat le pageQ limitQ,
      p.isDeleted = false ∧ p.isFlagged = false ∧ now < p.expiresAt) ∧
    (∀ p, getPostQuery db now pid = some p →
      p.isDeleted = false ∧ p.isFlagged = false ∧ now < p.expiresAt) ∧
    (∀ c ∈ getPostCommentsQuery cdb now pid,
      c.isDeleted = false ∧ c.isFlagged = false ∧
        ∃ t, c.expiresAt = some t ∧ now < t) ∧
    (∀ p ∈ categoryPostsQuery db now catName pageQ limitQ,
      p.isDeleted = false ∧ p.isFlagged = false ∧ now < p.expiresAt) ∧
    (statsOverviewQuery db cdb now).totalPosts =
      db.countP (fun p => !p.isDeleted && decide (now < p.expiresAt)) ∧
    (statsOverviewQuery db cdb now).totalComments =
      cdb.countP (statsCommentVisible now) := by
  refine ⟨?_, ?_, ?_, ?_, ?_, ?_⟩
  · intro p hp
    have h1 := List.mem_of_mem_take hp
    have h2 := List.mem_of_mem_drop h1
    rw [mem_sortWith] at h2
    have h3 := (List.mem_filter.1 h2).2
    simp only [Bool.and_eq_true] at h3
    exact postVisible_spec h3.1
  · intro p hp
    have h1 := head?_mem hp
    have h2 := (List.mem_filter.1 h1).2
    simp only [Bool.and_eq_true] at h2
    exact postVisible_spec h2.2
  · intro c hc
    have h1 := List.mem_of_mem_take hc
    rw [mem_sortWith] at h1
    have h2 := (List.mem_filter.1 h1).2
    simp only [Bool.and_eq_true] at h2
    exact commentVisible_spec h2.2
  · intro p hp
    have h1 := List.mem_of_mem_take hp
    have h2 := List.mem_of_mem_drop h1
    rw [mem_sortWith] at h2
    have h3 := (List.mem_filter.1 h2).2
    simp only [Bool.and_eq_true] at h3
    exact postVisible_spec h3.2
  · simp only [statsOverviewQuery, List.countP_eq_length_filter]
    rfl
  · simp only [statsOverviewQuery, List.countP_eq_length_filter]

/-- Witness for the amended C4: over a one-post store the list route returns
the visible post and the theorem yields its visibility facts. -/
theorem claim_C4_read_paths_exclude_amended_witness :
    samplePost ∈ listPostsQuery [samplePost] 0 none (fun _ _ => true) none none ∧
    (samplePost.isDeleted = false ∧ samplePost.isFlagged = false ∧
      0 < samplePost.expiresAt) :=
  ⟨by decide,
    (claim_C4_read_paths_exclude_amended [samplePost] [] 0 0 none "general"
      (fun _ _ => true) none none).1 samplePost (by decide)⟩

/-- Claim C10: whatever the supplied query parameters (missing, `NaN`, zero,
negative, or huge), the effective page number is at least 1 and the
effective page size lies in `[1, 50]`, so the list and category routes
return at most 50 posts. -/
theorem claim_C10_pagination_clamp (pageQ limitQ : Option Int)
    (db : List PostRec) (now : Nat) (cat : Option String) (catName : String)
    (le : PostRec → PostRec → Bool) :
    1 ≤ pageOf pageQ ∧ 1 ≤ limitOf limitQ ∧ limitOf limitQ ≤ 50 ∧
    (listPostsQuery db now cat le pageQ limitQ).length ≤ 50 ∧
    (categoryPostsQuery db now catName pageQ limitQ).length ≤ 50 := by
  have hp : 1 ≤ pageOf pageQ := le_max_left 1 _
  have hl1 : 1 ≤ limitOf limitQ := by
    unfold limitOf
    exact le_min (by norm_num) (le_max_left 1 _)
  have hl50 : limitOf limitQ ≤ 50 := min_le_left _ _
  have htn : (limitOf limitQ).toNat ≤ 50 := Int.toNat_le.2 hl50
  refine ⟨hp, hl1, hl50, ?_, ?_⟩
  · calc (listPostsQuery db now cat le pageQ limitQ).length
        ≤ (limitOf limitQ).toNat := by
          simp only [listPostsQuery]
          exact List.length_take_le _ _
      _ ≤ 50 := htn
  · calc (categoryPostsQuery db now catName pageQ limitQ).length
        ≤ (limitOf limitQ).toNat := by
          simp only [categoryPostsQuery]
          exact List.length_take_le _ _
      _ ≤ 50 := htn

/-! ## JSON serialization (Post.js 210-240, Comment.js 196-206)

The `toJSON` transform starts from the full document serialization, deletes
`ipHash`, `userAgent` and `__v` (the schemas set `versionKey: false`, so the
`__v` delete is a no-op), and for posts adds the `timeUntilExpiry`
virtual. -/

inductive JVal where
  | str : String → JVal
  | num : Nat → JVal
  | bool : Bool → JVal
  | null : JVal
  | arr : List JVal → JVal
  | obj : List (String × JVal) → JVal
  deriving Repr

def optStrJ : Option String → JVal
  | some s => JVal.str s
  | none => JVal.null

def optNumJ : Option Nat → JVal
  | some n => JVal.num n
  | none => JVal.null

def encJson (e : EncryptedData) : JVal :=
  JVal.obj [("content", JVal.arr (e.content.map JVal.num)),
    ("iv", JVal.arr (e.iv.map JVal.num)),
    ("authTag", JVal.arr (e.authTag.map JVal.num))]

/-- Embeds the `timeUntilExpiry` virtual (Post.js 211-225); `expiresAt` is
required, so the null branch for a missing value cannot fire. -/
def timeUntilExpiry (now : Nat) (p : PostRec) : String :=
  if p.expiresAt ≤ now then "Expired"
  else
    let tl := p.expiresAt - now
    let days := tl / dayMs
    let hrs := (tl % dayMs) / (60 * 60 * 1000)
    if 0 < days then toString days ++ " ngày"
    else if 0 < hrs then toString hrs ++ " giờ"
    else "Dưới 1 giờ"

/-- The raw serialization (`ret`) of a Post document handed to the `toJSON`
transform: every schema field plus the store id and the `timestamps`
field. -/
def postRet (p : PostRec) : List (String × JVal) :=
  [("_id", JVal.num p.id), ("anonId", JVal.str p.anonId),
   ("title", JVal.str p.title), ("content", encJson p.content),
   ("category", JVal.str p.category),
   ("tags", JVal.arr (p.tags.map JVal.str)), ("likes", JVal.num p.likes),
   ("commentCount", JVal.num p.commentCount),
   ("ipHash", JVal.str p.ipHash), ("userAgent", optStrJ p.userAgent),
   ("createdAt", JVal.num p.createdAt), ("expiresAt", JVal.num p.expiresAt),
   ("isDeleted", JVal.bool p.isDeleted), ("deletedAt", optNumJ p.deletedAt),
   ("isFlagged", JVal.bool p.isFlagged), ("flagCount", JVal.num p.flagCount),
   ("updatedAt", JVal.num p.updatedAt)]

/-- Embeds `postSchema.set('toJSON', ...)` (Post.js 228-240): delete
`ipHash`, `userAgent`, `__v`, then attach the `timeUntilExpiry` virtual. -/
def postToJSON (now : Nat) (p : PostRec) : List (String × JVal) :=
  ((postRet p).filter (fun kv =>
    !(kv.1 == "ipHash" || kv.1 == "userAgent" || kv.1 == "__v"))) ++
    [("timeUntilExpiry", JVal.str (timeUntilExpiry now p))]

/-- The raw serialization of a Comment document. -/
def commentRet (c : CommentRec) : List (String × JVal) :=
  [("_id", JVal.num c.id), ("postId", JVal.num c.postId),
   ("anonId", optStrJ c.anonId), ("content", encJson c.content),
   ("ipHash", JVal.str c.ipHash), ("userAgent", optStrJ c.userAgent),
   ("createdAt", JVal.num c.createdAt), ("expiresAt", optNumJ c.expiresAt),
   ("isDeleted", JVal.bool c.isDeleted), ("deletedAt", optNumJ c.deletedAt),
   ("isFlagged", JVal.bool c.isFlagged), ("flagCount", JVal.num c.flagCount),
   ("updatedAt", JVal.num c.updatedAt)]

/-- Embeds `commentSchema.set('toJSON', ...)` (Comment.js 197-206): delete
`ipHash`, `userAgent`, `__v`; no virtual is added. -/
def commentToJSON (c : CommentRec) : List (String × JVal) :=
  (commentRet c).filter (fun kv =>
    !(kv.1 == "ipHash" || kv.1 == "userAgent" || kv.1 == "__v"))

/-- Embeds the response object `{...post, content:
Post.decryptContent(post.content)}` built by `router.get('/:id')`
(posts.js 410-413) from a `.lean()` document.  `.lean()` returns a plain
object that never passes through the `toJSON` transform, so the spread
copies every stored field — `ipHash` and `userAgent` included — into the
response; the list route (posts.js 353-358) and the category route
(posts.js 600-603) build the same spread (the list route adds only
`totalPages`/`currentPage` keys on top). -/
def leanPostResponse (key : List Nat) (p : PostRec) : List (String × JVal) :=
  (postRet p).map (fun kv =>
    if kv.1 == "content"
    then (kv.1, JVal.arr ((decryptContent key p.content).map JVal.num))
    else kv)

/-- Embeds the comment response objects `{...comment, content:
Comment.decryptContent(comment.content)}` of `router.get('/:id')`
(posts.js 415-418), likewise built from `.lean()` documents. -/
def leanCommentResponse (key : List Nat) (c : CommentRec) :
    List (String × JVal) :=
  (commentRet c).map (fun kv =>
    if kv.1 == "content"
    then (kv.1, JVal.arr ((decryptContent key c.content).map JVal.num))
    else kv)

/-- Claim C9 (code bug): the `toJSON` transforms do strip `ipHash` and
`userAgent` (first four conjuncts — the intent, per the transforms' own
"Remove sensitive data" comments; only the create-post response at
posts.js 471 uses them), but the list, single-post-with-comments and
category read paths serialize `.lean()` documents that bypass the
transforms: for every record state their response objects carry the stored
`ipHash` and `userAgent` values to the client (last four conjuncts),
contradicting the claim. -/
theorem claim_C9_lean_responses_leak_sensitive_fields (now : Nat)
    (key : List Nat) (p : PostRec) (c : CommentRec) :
    "ipHash" ∉ (postToJSON now p).map Prod.fst ∧
    "userAgent" ∉ (postToJSON now p).map Prod.fst ∧
    "ipHash" ∉ (commentToJSON c).map Prod.fst ∧
    "userAgent" ∉ (commentToJSON c).map Prod.fst ∧
    ("ipHash", JVal.str p.ipHash) ∈ leanPostResponse key p ∧
    ("userAgent", optStrJ p.userAgent) ∈ leanPostResponse key p ∧
    ("ipHash", JVal.str c.ipHash) ∈ leanCommentResponse key c ∧
    ("userAgent", optStrJ c.userAgent) ∈ leanCommentResponse key c := by
  have hpost : (postToJSON now p).map Prod.fst =
      ["_id", "anonId", "title", "content", "category", "tags", "likes",
       "commentCount", "createdAt", "expiresAt", "isDeleted", "deletedAt",
       "isFlagged", "flagCount", "updatedAt", "timeUntilExpiry"] := rfl
  have hcomment : (commentToJSON c).map Prod.fst =
      ["_id", "postId", "anonId", "content", "createdAt", "expiresAt",
       "isDeleted", "deletedAt", "isFlagged", "flagCount", "updatedAt"] := rfl
  rw [hpost, hcomment]
  refine ⟨by decide, by decide, by decide, by decide, ?_, ?_, ?_, ?_⟩ <;>
    simp [leanPostResponse, leanCommentResponse, postRet, commentRet]

/-! ## Spam-pattern validation (security.js 78-96 and 123-144)

Executable embeddings of the four post spam regexes and the three comment
spam regexes, with JavaScript regex search semantics: a pattern rejects the
content when it matches at some position, with backtracking (existential
choice) inside quantifiers.  `/(.)\1{10,}/` is a character (other than a
line terminator) repeated at least 11 times consecutively;
`/(https?:\/\/[^\s]+){3,}/` is at least 3 *immediately consecutive* URL
blocks (each `http://` or `https://` followed by at least one non-space
character — the quantified group allows no separator between repetitions);
`/[A-Z]{20,}/` is an uppercase run; `/(\b\w+\b\s*){1,3}\1{5,}/` captures a
word-boundary-delimited word plus optional trailing whitespace on the last
of 1-3 group iterations and requires 5 further literal copies. -/

/-- JavaScript `\s` (the whitespace characters occurring in this code base;
the Unicode space classes are irrelevant to the validated contents). -/
def isSpaceCh (c : Char) : Bool :=
  c = ' ' || c = '\t' || c = '\n' || c = '\x0d' || c = '\x0b' || c = '\x0c'

/-- JavaScript `\w` = `[A-Za-z0-9_]`. -/
def isWordCh (c : Char) : Bool :=
  ('a' ≤ c && c ≤ 'z') || ('A' ≤ c && c ≤ 'Z') || ('0' ≤ c && c ≤ '9') || c = '_'

/-- JavaScript `.` without the `s` flag: any character except a line
terminator. -/
def isDotCh (c : Char) : Bool :=
  !(c = '\n' || c = '\x0d' || c = ' ' || c = ' ')

/-- Search semantics of `/(.)\1{10,}/` with run length `k = 11`: some
position starts a run of `k` equal non-terminator characters. -/
def charRunSpam (k : Nat) (s : List Char) : Bool :=
  s.tails.any (fun t =>
    match t with
    | [] => false
    | c :: r => isDotCh c && decide (k ≤ (r.takeWhile (fun d => d = c)).length + 1))

/-- Search semantics of `/[A-Z]{k,}/`. -/
def capsRunSpam (k : Nat) (s : List Char) : Bool :=
  s.tails.any (fun t =>
    decide (k ≤ (t.takeWhile (fun c => 'A' ≤ c && c ≤ 'Z')).length))

/-- One URL block `https?:\/\/[^\s]+` matched at the head of `t`: the
possible remainders after consuming the scheme and `j ≥ 1` non-space
characters (backtracking = all choices of `j`). -/
def urlBlockRests (t : List Char) : List (List Char) :=
  let afterScheme : Option (List Char) :=
    if ("https://".toList).isPrefixOf t then some (t.drop 8)
    else if ("http://".toList).isPrefixOf t then some (t.drop 7)
    else none
  match afterScheme with
  | none => []
  | some r =>
      let run := r.takeWhile (fun c => !isSpaceCh c)
      (List.range run.length).map (fun j => r.drop (j + 1))

/-- `k` immediately consecutive URL blocks starting exactly here. -/
def urlBlocksFrom : Nat → List Char → Bool
  | 0, _ => true
  | k + 1, t => (urlBlockRests t).any (urlBlocksFrom k)

/-- Search semantics of `/(https?:\/\/[^\s]+){k,}/`. -/
def urlSpam (k : Nat) (s : List Char) : Bool :=
  s.tails.any (urlBlocksFrom k)

/-- `\b` holds before the head of `t` when the previous character `pc`
(none at the string start) is a non-word character and the head is a word
character; callers ensure the head is a word character. -/
def boundaryBefore (pc : Option Char) : Bool :=
  match pc with
  | none => true
  | some c => !isWordCh c

/-- One iteration of the group `(\b\w+\b\s*)` at suffix `t` with previous
character `pc`: `\b\w+\b` forces the maximal word run (stopping earlier
would put the closing `\b` between two word characters), then `\s*`
consumes any `j` whitespace characters.  Returns `(captured text,
remainder)` pairs. -/
def wordIterChoices (pc : Option Char) (t : List Char) :
    List (List Char × List Char) :=
  if boundaryBefore pc then
    match t with
    | [] => []
    | c :: _ =>
        if isWordCh c then
          let w := t.takeWhile isWordCh
          let r1 := t.dropWhile isWordCh
          let ws := r1.takeWhile isSpaceCh
          (List.range (ws.length + 1)).map
            (fun j => (w ++ ws.take j, r1.drop j))
        else []
  else []

/-- Strip `n` literal copies of `cap` from `rest` (the backreference
`\1{5,}` with `n = 5`). -/
def stripCopies : Nat → List Char → List Char → Bool
  | 0, _, _ => true
  | n + 1, cap, rest =>
      cap.isPrefixOf rest && stripCopies n cap (rest.drop cap.length)

/-- Search semantics of `/(\b\w+\b\s*){1,3}\1{5,}/` at one position: the
group runs 1, 2 or 3 times (the capture is the last iteration's text, as in
JavaScript) and the capture then repeats 5 more times literally. -/
def wordRepeatAt (pc : Option Char) (t : List Char) : Bool :=
  (wordIterChoices pc t).any (fun cr =>
    stripCopies 5 cr.1 cr.2 ||
    (wordIterChoices cr.1.getLast? cr.2).any (fun cr2 =>
      stripCopies 5 cr2.1 cr2.2 ||
      (wordIterChoices cr2.1.getLast? cr2.2).any (fun cr3 =>
        stripCopies 5 cr3.1 cr3.2)))

/-- All search positions of a string, each with its preceding character. -/
def searchPositions (s : List Char) : List (Option Char × List Char) :=
  (none, s) :: (List.range s.length).map (fun i => (s.get? i, s.drop (i + 1)))

def wordRepeatSpam (s : List Char) : Bool :=
  (searchPositions s).any (fun pt => wordRepeatAt pt.1 pt.2)

/-- Embeds the post spam check of `postValidationRules` (security.js 81-96):
the custom validator throws (rejects) exactly when one of the four patterns
matches. -/
def postSpamMatch (s : List Char) : Bool :=
  charRunSpam 11 s || urlSpam 3 s || capsRunSpam 20 s || wordRepeatSpam s

/-- Embeds the comment spam check of `commentValidationRules`
(security.js 128-142): three patterns, URL threshold 2, caps threshold 15. -/
def commentSpamMatch (s : List Char) : Bool :=
  charRunSpam 11 s || urlSpam 2 s || capsRunSpam 15 s

/-- Content-shape rule for posts (security.js 78-96): length 10-5000 and no
spam-pattern match. -/
def postContentAccepted (s : List Char) : Bool :=
  decide (10 ≤ s.length) && decide (s.length ≤ 5000) && !postSpamMatch s

/-- Content-shape rule for comments (security.js 125-142). -/
def commentContentAccepted (s : List Char) : Bool :=
  decide (1 ≤ s.length) && decide (s.length ≤ 2000) && !commentSpamMatch s

/-- Claim C8 (code bug): the content consisting of the same URL four times,
space-separated — which clearly "contains 3 or more URLs" — matches none of
the post spam patterns (nor the comment patterns), so the spam check accepts
it, because the quantified group in `(https?:\/\/[^\s]+){3,}` admits no
separator between repetitions and thus only fires on URLs concatenated
back-to-back (first conjunct), contradicting the source's own
`// Multiple URLs` comment and the spec's scenario. -/
theorem claim_C8_url_spam_check_eval :
    urlSpam 3 ("http://a.comhttp://a.comhttp://a.com".toList) = true ∧
    urlSpam 2 ("http://a.comhttp://a.com".toList) = true ∧
    postSpamMatch
      ("http://a.com http://a.com http://a.com http://a.com".toList) = false ∧
    postContentAccepted
      ("http://a.com http://a.com http://a.com http://a.com".toList) = true ∧
    commentSpamMatch
      ("http://a.com http://a.com http://a.com http://a.com".toList) = false ∧
    commentContentAccepted
      ("http://a.com http://a.com http://a.com http://a.com".toList) = true := by
  refine ⟨?_, ?_, ?_, ?_, ?_, ?_⟩ <;> decide
